import Mathlib

/-!
Verification of the ConfirmacionMetrologica EDA toolkit.

Shallow embedding of `src/utils/DataEDA.py` (class `EDAStatisticalAnalysis`)
and `src/utils/DataLoader.py` (class `DataLoader`).

Modelling conventions:
* pandas/numpy float cells are modelled by `EVal`: an exact rational together
  with the IEEE special values NaN, +inf and -inf, with the usual float
  arithmetic tables (division by zero yields a signed infinity, 0/0 and any
  operation on NaN yield NaN).
* A pandas DataFrame is an ordered association list of named columns
  (`Frame`); column selection takes the first column with the given name.
* Python tuples such as `(error_abs, error_rel)` versus `(str(e), None)` are
  modelled componentwise by `Except String _ × Option _`.
* Irrational summary numbers (the p-value of the F distribution, a standard
  deviation, a Pearson r) are represented by the exact rational data that
  determines them (F statistic with both degrees of freedom, the sample
  variance, the covariance together with the product of the variances).
-/

namespace CM

deriving instance DecidableEq for Except

/-- A pandas/numpy float value: an exact rational or one of the IEEE special
values NaN, +inf, -inf. -/
inductive EVal where
  | num (q : ℚ)
  | nan
  | pinf
  | ninf
deriving DecidableEq, Repr

/-- Float negation. -/
def eneg : EVal → EVal
  | .num q => .num (-q)
  | .nan => .nan
  | .pinf => .ninf
  | .ninf => .pinf

/-- Float addition (IEEE semantics: NaN absorbs, inf + (-inf) = NaN). -/
def eadd : EVal → EVal → EVal
  | .num a, .num b => .num (a + b)
  | .nan, _ => .nan
  | _, .nan => .nan
  | .pinf, .ninf => .nan
  | .ninf, .pinf => .nan
  | .pinf, _ => .pinf
  | _, .pinf => .pinf
  | .ninf, _ => .ninf
  | _, .ninf => .ninf

/-- Float subtraction. -/
def esub (a b : EVal) : EVal := eadd a (eneg b)

/-- Float absolute value. -/
def eabs : EVal → EVal
  | .num q => .num (if q < 0 then -q else q)
  | .nan => .nan
  | .pinf => .pinf
  | .ninf => .pinf

/-- Float multiplication (inf * 0 = NaN). -/
def emul : EVal → EVal → EVal
  | .num a, .num b => .num (a * b)
  | .nan, _ => .nan
  | _, .nan => .nan
  | .pinf, .pinf => .pinf
  | .pinf, .ninf => .ninf
  | .ninf, .pinf => .ninf
  | .ninf, .ninf => .pinf
  | .pinf, .num b => if b = 0 then .nan else if 0 < b then .pinf else .ninf
  | .ninf, .num b => if b = 0 then .nan else if 0 < b then .ninf else .pinf
  | .num a, .pinf => if a = 0 then .nan else if 0 < a then .pinf else .ninf
  | .num a, .ninf => if a = 0 then .nan else if 0 < a then .ninf else .pinf

/-- Float division, as numpy/pandas performs it on float64 columns:
x/0 is a signed infinity for x ≠ 0, 0/0 is NaN, x/±inf is 0. -/
def ediv : EVal → EVal → EVal
  | .num a, .num b =>
      if b = 0 then (if a = 0 then .nan else if 0 < a then .pinf else .ninf)
      else .num (a / b)
  | .nan, _ => .nan
  | _, .nan => .nan
  | .num _, .pinf => .num 0
  | .num _, .ninf => .num 0
  | .pinf, .num b => if 0 ≤ b then .pinf else .ninf
  | .ninf, .num b => if 0 ≤ b then .ninf else .pinf
  | .pinf, .pinf => .nan
  | .pinf, .ninf => .nan
  | .ninf, .pinf => .nan
  | .ninf, .ninf => .nan

/-- A DataFrame: ordered list of named columns of float cells. -/
abbrev Frame := List (String × List EVal)

/-- `df.columns`. -/
def columns (df : Frame) : List String := df.map Prod.fst

/-- `df[c]` for a single column name: the first column called `c`
(empty if absent; only used under a presence guard, as in the source). -/
def getCol (df : Frame) (c : String) : List EVal := (df.lookup c).getD []

/-- `df[cols]`: sub-frame of the listed columns, in the listed order. -/
def selectCols (df : Frame) (cols : List String) : Frame :=
  cols.map (fun c => (c, getCol df c))

/-- `frame.subtract(series, axis=0)`: subtract a series from every column,
row by row. -/
def subtractSeries (df : Frame) (s : List EVal) : Frame :=
  df.map (fun c => (c.1, List.zipWith esub c.2 s))

/-- `frame.abs()`. -/
def absFrame (df : Frame) : Frame :=
  df.map (fun c => (c.1, c.2.map eabs))

/-- `frame.div(series, axis=0)`. -/
def divSeries (df : Frame) (s : List EVal) : Frame :=
  df.map (fun c => (c.1, List.zipWith ediv c.2 s))

/-- One cell of `.replace([np.inf, -np.inf], np.nan)`. -/
def replaceInfCell : EVal → EVal
  | .pinf => .nan
  | .ninf => .nan
  | v => v

/-- `frame.replace([np.inf, -np.inf], np.nan)`. -/
def replaceInf (df : Frame) : Frame :=
  df.map (fun c => (c.1, c.2.map replaceInfCell))

/-- One cell of `.fillna(0)`. -/
def fillna0Cell : EVal → EVal
  | .nan => .num 0
  | v => v

/-- `frame.fillna(0)`. -/
def fillna0 (df : Frame) : Frame :=
  df.map (fun c => (c.1, c.2.map fillna0Cell))

/-- `EDAStatisticalAnalysis.error_analysis` (DataEDA.py lines 41-61).
The Python tuple is `(error_abs, error_rel)` on success and `(str(e), None)`
on failure; it is modelled componentwise as `Except String Frame × Option
Frame`. -/
def error_analysis (df : Frame) (reference_col : String)
    (measurement_cols : List String) : Except String Frame × Option Frame :=
  if reference_col ∉ columns df then
    (.error ("Reference column \x27" ++ reference_col ++
      "\x27 not found in DataFrame."), Option.none)
  else if ∃ c ∈ measurement_cols, c ∉ columns df then
    (.error "One or more measurement columns not found in DataFrame.",
      Option.none)
  else
    let ref := getCol df reference_col
    let error_abs := absFrame (subtractSeries (selectCols df measurement_cols) ref)
    let error_rel := fillna0 (replaceInf (divSeries error_abs ref))
    (.ok error_abs, some error_rel)

/-- Spec-side per-cell clean-up: infinite (division-by-zero) and undefined
(NaN) entries are replaced by 0, finite entries kept. -/
def zeroIfUndef : EVal → EVal
  | .num q => .num q
  | _ => .num 0

theorem fillna0Cell_replaceInfCell (v : EVal) :
    fillna0Cell (replaceInfCell v) = zeroIfUndef v := by
  cases v <;> rfl

theorem zipWith_zipWith_right {α β γ δ : Type} (f : α → β → γ)
    (g : γ → β → δ) (l : List α) (r : List β) :
    List.zipWith g (List.zipWith f l r) r =
      List.zipWith (fun a b => g (f a b) b) l r := by
  induction l generalizing r with
  | nil => simp
  | cons a l ih =>
    cases r with
    | nil => simp
    | cons b r => simp [List.zipWith, ih]

/-- C1, success branch, abs errors: unfolding the pandas pipeline gives the
per-measurement-column zipWith form. -/
theorem error_analysis_ok (df : Frame) (rc : String) (mcols : List String)
    (h1 : rc ∈ columns df) (h2 : ∀ m ∈ mcols, m ∈ columns df) :
    error_analysis df rc mcols =
      (.ok (mcols.map (fun m => (m,
          List.zipWith (fun x r => eabs (esub x r)) (getCol df m) (getCol df rc)))),
       some (mcols.map (fun m => (m,
          List.zipWith (fun x r => zeroIfUndef (ediv (eabs (esub x r)) r))
            (getCol df m) (getCol df rc))))) := by
  rw [error_analysis, if_neg (by simp [h1]), if_neg (by simp; exact h2)]
  simp only [selectCols, subtractSeries, absFrame, divSeries, replaceInf, fillna0,
    List.map_map]
  simp only [Prod.mk.injEq]
  refine ⟨?_, ?_⟩
  · simp [Function.comp, List.map_zipWith]
  · simp only [Function.comp_def, List.map_zipWith, zipWith_zipWith_right,
      fillna0Cell_replaceInfCell]

/-- A small concrete dataset used to evaluate theorems on concrete input. -/
def demoFrame : Frame :=
  [("ref", [.num 10, .num 0, .nan]), ("m1", [.num 12, .num 3, .num 5])]

/-- C1: for every dataset containing the reference column and all measurement
columns, `error_analysis` returns the pair whose first component maps each
measurement column m to the elementwise `|df[m] - df[ref]|` and whose second
maps m to that quantity divided by `df[ref]` with infinite (division-by-zero)
and NaN entries replaced by 0; when the reference column or any measurement
column is absent it returns an error-message string paired with `None`. -/
theorem claim_C1 (df : Frame) (rc : String) (mcols : List String) :
    ((rc ∈ columns df ∧ ∀ m ∈ mcols, m ∈ columns df) →
      error_analysis df rc mcols =
        (.ok (mcols.map (fun m => (m,
            List.zipWith (fun x r => eabs (esub x r)) (getCol df m) (getCol df rc)))),
         some (mcols.map (fun m => (m,
            List.zipWith (fun x r => zeroIfUndef (ediv (eabs (esub x r)) r))
              (getCol df m) (getCol df rc)))))) ∧
    ((rc ∉ columns df ∨ ∃ m ∈ mcols, m ∉ columns df) →
      ∃ s, error_analysis df rc mcols = (.error s, Option.none)) := by
  constructor
  · exact fun h => error_analysis_ok df rc mcols h.1 h.2
  · intro h
    rw [error_analysis]
    by_cases hrc : rc ∈ columns df
    · have hm : ∃ c ∈ mcols, c ∉ columns df := h.resolve_left (by simp [hrc])
      rw [if_neg (by simp [hrc]), if_pos hm]
      exact ⟨_, rfl⟩
    · rw [if_pos hrc]
      exact ⟨_, rfl⟩

theorem claim_C1_witness :
    error_analysis demoFrame "ref" ["m1"] =
      (.ok [("m1", [.num 2, .num 3, .nan])],
       some [("m1", [.num (1/5), .num 0, .num 0])]) ∧
    ∃ s, error_analysis demoFrame "ref" ["zz"] = (.error s, Option.none) := by
  constructor
  · have hm : getCol demoFrame "m1" = [EVal.num 12, EVal.num 3, EVal.num 5] := rfl
    have hr : getCol demoFrame "ref" = [EVal.num 10, EVal.num 0, EVal.nan] := rfl
    rw [(claim_C1 demoFrame "ref" ["m1"]).1 ⟨by decide, by decide⟩]
    simp only [List.map_cons, List.map_nil, hm, hr]
    norm_num [esub, eadd, eneg, eabs, ediv, zeroIfUndef]
  · exact (claim_C1 demoFrame "ref" ["zz"]).2 (Or.inr ⟨"zz", by decide, by decide⟩)

/-! ## DataLoader.transform_json_keys (DataLoader.py lines 13-37) -/

/-- The renaming loop of `transform_json_keys` (lines 26-32): walk the columns
in order, collecting `mapping[col]`, and raise `KeyError` at the first column
with no entry in `mapping`. -/
def mapColumns (cols : List String) (mapping : List (String × String)) :
    Except String (List String) :=
  match cols with
  | [] => .ok []
  | c :: rest =>
    match mapping.lookup c with
    | some v => (mapColumns rest mapping).map (fun vs => v :: vs)
    | Option.none =>
        .error ("La columna \x27" ++ c ++ "\x27 no tiene un mapeo en el modelo.")

/-- `DataLoader.transform_json_keys` with the caller's frame threaded
explicitly: the first component is the returned value (or the raised error),
the second is the state of the caller's frame after the call.  The assignment
`input_data.columns = new_columns` mutates the argument in place and the
function then returns that same object, so on success both components carry
the renamed frame; the raise happens before the assignment, so on failure the
caller's frame is unchanged. -/
def transform_json_keys (input_data : Frame) (mapping : List (String × String)) :
    Except String Frame × Frame :=
  match mapColumns (columns input_data) mapping with
  | .error e => (.error e, input_data)
  | .ok new_columns =>
      let renamed := List.zip new_columns (input_data.map Prod.snd)
      (.ok renamed, renamed)

theorem mapColumns_ok (cols : List String) (mapping : List (String × String))
    (h : ∀ c ∈ cols, (mapping.lookup c).isSome) :
    mapColumns cols mapping = .ok (cols.map (fun c => (mapping.lookup c).getD c)) := by
  induction cols with
  | nil => rfl
  | cons c rest ih =>
    have hc := h c (by simp)
    rw [mapColumns]
    obtain ⟨v, hv⟩ := Option.isSome_iff_exists.mp hc
    rw [hv, ih (fun d hd => h d (by simp [hd]))]
    simp [hv, Except.map]

theorem mapColumns_err (cols : List String) (mapping : List (String × String))
    (h : ∃ c ∈ cols, mapping.lookup c = Option.none) :
    ∃ e, mapColumns cols mapping = .error e := by
  induction cols with
  | nil => simp at h
  | cons c rest ih =>
    rw [mapColumns]
    rcases h with ⟨d, hd, hnone⟩
    rcases List.mem_cons.mp hd with rfl | hdr
    · rw [hnone]; exact ⟨_, rfl⟩
    · cases hc : mapping.lookup c with
      | none => exact ⟨_, rfl⟩
      | some v =>
        obtain ⟨e, he⟩ := ih ⟨d, hdr, hnone⟩
        exact ⟨e, by rw [he]; rfl⟩

theorem transform_json_keys_ok (df : Frame) (mapping : List (String × String))
    (h : ∀ c ∈ columns df, (mapping.lookup c).isSome) :
    transform_json_keys df mapping =
      (.ok (df.map (fun p => ((mapping.lookup p.1).getD p.1, p.2))),
       df.map (fun p => ((mapping.lookup p.1).getD p.1, p.2))) := by
  rw [transform_json_keys, mapColumns_ok (columns df) mapping h]
  simp only [columns, List.map_map]
  rw [List.zip_map']
  simp [Function.comp_def]

/-- C2: `transform_json_keys` is all-or-nothing: if any existing column has no
entry in the mapping the call fails with an error and the caller's frame is
unchanged; if every column has an entry, every column is renamed to its mapped
name, keeping the original column order and data. -/
theorem claim_C2 (df : Frame) (mapping : List (String × String)) :
    ((∃ c ∈ columns df, mapping.lookup c = Option.none) →
      ∃ e, transform_json_keys df mapping = (.error e, df)) ∧
    ((∀ c ∈ columns df, (mapping.lookup c).isSome) →
      transform_json_keys df mapping =
        (.ok (df.map (fun p => ((mapping.lookup p.1).getD p.1, p.2))),
         df.map (fun p => ((mapping.lookup p.1).getD p.1, p.2)))) := by
  constructor
  · intro h
    obtain ⟨e, he⟩ := mapColumns_err (columns df) mapping h
    exact ⟨e, by rw [transform_json_keys, he]⟩
  · exact transform_json_keys_ok df mapping

theorem claim_C2_witness :
    (∃ e, transform_json_keys demoFrame [("ref", "R")] = (.error e, demoFrame)) ∧
    transform_json_keys demoFrame [("ref", "R"), ("m1", "M")] =
      (.ok [("R", [.num 10, .num 0, .nan]), ("M", [.num 12, .num 3, .num 5])],
       [("R", [.num 10, .num 0, .nan]), ("M", [.num 12, .num 3, .num 5])]) := by
  constructor
  · exact (claim_C2 demoFrame [("ref", "R")]).1 ⟨"m1", by decide, by decide⟩
  · rw [(claim_C2 demoFrame [("ref", "R"), ("m1", "M")]).2 (by decide)]
    rfl

/-- C10: on success, `transform_json_keys` mutates the caller's frame in place
and returns that same frame — the returned value and the caller's post-call
state are one and the same renamed frame, whose columns carry the new names
(same order) over the unchanged data. -/
theorem claim_C10 (df : Frame) (mapping : List (String × String))
    (h : ∀ c ∈ columns df, (mapping.lookup c).isSome) :
    ∃ d, transform_json_keys df mapping = (.ok d, d) ∧
      columns d = (columns df).map (fun c => (mapping.lookup c).getD c) ∧
      d.map Prod.snd = df.map Prod.snd := by
  refine ⟨_, transform_json_keys_ok df mapping h, ?_, ?_⟩
  · simp [columns, List.map_map, Function.comp_def]
  · simp [List.map_map, Function.comp_def]

theorem claim_C10_witness :
    ∃ d, transform_json_keys demoFrame [("ref", "R"), ("m1", "M")] = (.ok d, d) ∧
      columns d = ["R", "M"] ∧ d.map Prod.snd = demoFrame.map Prod.snd := by
  obtain ⟨d, h1, h2, h3⟩ := claim_C10 demoFrame [("ref", "R"), ("m1", "M")] (by decide)
  exact ⟨d, h1, by rw [h2]; decide, h3⟩

/-! ## EDAStatisticalAnalysis.anova_test (DataEDA.py lines 63-79) -/

/-- Sum of a float series. -/
def esum (l : List EVal) : EVal := l.foldl eadd (.num 0)

/-- The p-value returned by `scipy.stats.f_oneway`: the survival function of
the F(dfBetween, dfWithin) distribution at the statistic.  It is an irrational
special function of these three rational quantities, so it is represented by
its determining data. -/
structure PVal where
  fStat : EVal
  dfBetween : ℤ
  dfWithin : ℤ
deriving DecidableEq, Repr

/-- `scipy.stats.f_oneway(*groups)`: one-way ANOVA over the given groups of
values.  With fewer than two groups scipy raises
`TypeError: at least two inputs are required`; otherwise it returns the pair
(F statistic, p-value).  The F statistic is the ratio of the between-group to
the within-group mean square, computed here in the exact `EVal` arithmetic
(empty or constant groups flow through the NaN/inf rules). -/
def f_oneway (groups : List (List EVal)) : Except String EVal × Option PVal :=
  if groups.length < 2 then
    (.error ("at least two inputs are required; got " ++
      toString groups.length), Option.none)
  else
    let k := groups.length
    let N := (groups.map List.length).sum
    let grandMean := ediv (esum (groups.foldr (· ++ ·) [])) (.num N)
    let groupMean := fun (g : List EVal) => ediv (esum g) (.num g.length)
    let ssb := esum (groups.map (fun g =>
      emul (.num g.length) (emul (esub (groupMean g) grandMean)
        (esub (groupMean g) grandMean))))
    let ssw := esum (groups.map (fun g =>
      esum (g.map (fun x => emul (esub x (groupMean g)) (esub x (groupMean g))))))
    let dfb : ℤ := (k : ℤ) - 1
    let dfw : ℤ := (N : ℤ) - (k : ℤ)
    let fStat := ediv (ediv ssb (.num (dfb : ℚ))) (ediv ssw (.num (dfw : ℚ)))
    (.ok fStat, some ⟨fStat, dfb, dfw⟩)

/-- `EDAStatisticalAnalysis.anova_test` (DataEDA.py lines 63-79): with fewer
than two listed measurement columns it raises (and catches) a ValueError;
otherwise it gathers `df[col]` for exactly the listed columns present in the
dataset and hands them to `f_oneway`.  Python tuple modelled componentwise. -/
def anova_test (df : Frame) (measurement_cols : List String) :
    Except String EVal × Option PVal :=
  if measurement_cols.length < 2 then
    (.error "At least two columns are required for ANOVA.", Option.none)
  else
    f_oneway (measurement_cols.filterMap (fun c => df.lookup c))

/-- C6: `anova_test` with fewer than two measurement column names returns the
error-message string paired with `None`, not a numeric result. -/
theorem claim_C6 (df : Frame) (measurement_cols : List String)
    (h : measurement_cols.length < 2) :
    anova_test df measurement_cols =
      (.error "At least two columns are required for ANOVA.", Option.none) := by
  rw [anova_test, if_pos h]

theorem claim_C6_witness :
    anova_test demoFrame ["m1"] =
      (.error "At least two columns are required for ANOVA.", Option.none) :=
  claim_C6 demoFrame ["m1"] (by decide)

theorem lookup_isSome_iff (df : Frame) (c : String) :
    (df.lookup c).isSome ↔ c ∈ columns df := by
  induction df with
  | nil => simp [List.lookup, columns]
  | cons p l ih =>
    obtain ⟨k, v⟩ := p
    by_cases h : c = k
    · subst h; simp [List.lookup, columns]
    · simp only [List.lookup, beq_false_of_ne h, columns, List.map_cons,
        List.mem_cons, h, false_or] at ih ⊢
      exact ih

theorem filterMap_lookup_eq (df : Frame) (l : List String) :
    l.filterMap (fun c => df.lookup c) =
      (l.filter (fun c => decide (c ∈ columns df))).map (getCol df) := by
  induction l with
  | nil => rfl
  | cons c l ih =>
    by_cases hc : c ∈ columns df
    · have hs : (df.lookup c).isSome := (lookup_isSome_iff df c).mpr hc
      obtain ⟨v, hv⟩ := Option.isSome_iff_exists.mp hs
      simp [List.filterMap_cons, hv, List.filter_cons, hc, ih, getCol]
    · have hnone : df.lookup c = Option.none := by
        rw [← Option.not_isSome_iff_eq_none, lookup_isSome_iff]
        simpa using hc
      simp [List.filterMap_cons, hnone, List.filter_cons, hc, ih]

/-- C8: with two or more listed measurement columns, `anova_test` silently
drops every listed column that is absent from the dataset — no missing-column
error is produced — and runs `f_oneway` over exactly the data of the listed
columns that are present, in order. -/
theorem claim_C8 (df : Frame) (measurement_cols : List String)
    (h : 2 ≤ measurement_cols.length) :
    anova_test df measurement_cols =
      f_oneway ((measurement_cols.filter (fun c => decide (c ∈ columns df))).map
        (getCol df)) := by
  rw [anova_test, if_neg (by omega), filterMap_lookup_eq]

theorem claim_C8_witness :
    anova_test demoFrame ["m1", "zz", "ref"] =
      f_oneway [[.num 12, .num 3, .num 5], [.num 10, .num 0, .nan]] := by
  rw [claim_C8 demoFrame ["m1", "zz", "ref"] (by decide)]
  rfl

/-! ## DataLoader.load_data_csv (DataLoader.py lines 84-107) -/

/-- Digit string to number. -/
def digitsToNat (l : List Char) : Nat :=
  l.foldl (fun n c => n * 10 + (c.toNat - '0'.toNat)) 0

/-- Unsigned decimal: digits with an optional fractional part.  Mirrors what
`pd.to_numeric` accepts for a plain decimal literal. -/
def parseUnsigned (l : List Char) : Option ℚ :=
  let ip := l.takeWhile Char.isDigit
  let rest := l.dropWhile Char.isDigit
  match rest with
  | [] => if ip.isEmpty then Option.none else some (digitsToNat ip : ℚ)
  | '.' :: fp =>
      if fp.all Char.isDigit ∧ ¬(ip.isEmpty ∧ fp.isEmpty) then
        some ((digitsToNat ip : ℚ) + (digitsToNat fp : ℚ) / (10 : ℚ) ^ fp.length)
      else Option.none
  | _ => Option.none

/-- One cell of `pd.to_numeric(column, errors=coerce)`: the parsed number, or
`none` for a cell that coerces to NaN (unparseable or empty). -/
def to_numeric (s : String) : Option ℚ :=
  match s.data with
  | '-' :: rest => (parseUnsigned rest).map (fun q => -q)
  | '+' :: rest => parseUnsigned rest
  | l => parseUnsigned l

/-- A column after the coercion loop: fully numeric, or reverted to its
original text cells. -/
inductive LoadedCol where
  | numeric (vals : List ℚ)
  | raw (vals : List String)
deriving DecidableEq, Repr

/-- `pd.to_numeric` over a whole column: the parsed cells, or `none` as soon
as one cell coerces to NaN. -/
def coerceAll (cells : List String) : Option (List ℚ) :=
  match cells with
  | [] => some []
  | c :: rest =>
    match to_numeric c with
    | some q => (coerceAll rest).map (fun qs => q :: qs)
    | Option.none => Option.none

/-- Lines 99-103 of DataLoader.py for one column: coerce every cell to
numeric; if the coerced column has any NaN (`isna().any()`), revert to the
original values. -/
def coerce_column (cells : List String) : LoadedCol :=
  match coerceAll cells with
  | some qs => .numeric qs
  | Option.none => .raw cells

/-- What `pd.read_csv` did with the file at a path:
* `table cols`: parsed cleanly into the given named columns of text fields;
* `malformed`: tokenization failed — `pd.errors.ParserError`;
* `undecodable`: the bytes do not decode — `UnicodeDecodeError`
  (not a `ParserError`). -/
inductive CsvFile where
  | table (cols : List (String × List String))
  | malformed
  | undecodable

/-- An exception that escapes `load_data_csv` to the caller. -/
inductive PyError where
  | fileNotFound
  | unicodeDecodeError
deriving DecidableEq, Repr

/-- `DataLoader.load_data_csv` (DataLoader.py lines 84-107) over an explicit
file system (path ↦ file, `none` for a missing path).  Only
`pd.errors.ParserError` is caught (print + `return None`); a missing file or
an undecodable file raises through to the caller, modelled by `.error`.  On a
clean parse every column goes through the all-or-nothing numeric coercion
loop. -/
def load_data_csv (fs : String → Option CsvFile) (filename_path : String) :
    Except PyError (Option (List (String × LoadedCol))) :=
  match fs filename_path with
  | Option.none => .error .fileNotFound
  | some .malformed => .ok Option.none
  | some .undecodable => .error .unicodeDecodeError
  | some (.table cols) => .ok (some (cols.map (fun c => (c.1, coerce_column c.2))))

theorem coerce_column_all_numeric (cells : List String)
    (h : ∀ s ∈ cells, (to_numeric s).isSome) :
    coerce_column cells = .numeric (cells.map (fun s => (to_numeric s).getD 0)) := by
  rw [coerce_column]
  have : coerceAll cells = some (cells.map (fun s => (to_numeric s).getD 0)) := by
    induction cells with
    | nil => rfl
    | cons c l ih =>
      obtain ⟨v, hv⟩ := Option.isSome_iff_exists.mp (h c (by simp))
      rw [coerceAll, hv, ih (fun s hs => h s (by simp [hs]))]
      simp [hv]
  rw [this]

theorem coerce_column_revert (cells : List String)
    (h : ∃ s ∈ cells, to_numeric s = Option.none) :
    coerce_column cells = .raw cells := by
  rw [coerce_column]
  have : coerceAll cells = Option.none := by
    induction cells with
    | nil => simp at h
    | cons c l ih =>
      rw [coerceAll]
      rcases h with ⟨s, hs, hn⟩
      rcases List.mem_cons.mp hs with rfl | hsl
      · rw [hn]
      · cases hc : to_numeric c
        · rfl
        · rw [ih ⟨s, hsl, hn⟩]; rfl
  rw [this]

/-- C4: numeric coercion in `load_data_csv` is all-or-nothing per column — on
a cleanly parsed file, each loaded column is the numeric parse of all its
cells when every cell parses, and the untouched original text cells as soon
as any cell coerces to an undefined value. -/
theorem claim_C4 (fs : String → Option CsvFile) (path : String)
    (cols : List (String × List String)) (h : fs path = some (.table cols)) :
    load_data_csv fs path =
      .ok (some (cols.map (fun c => (c.1, coerce_column c.2)))) ∧
    ∀ name cells, (name, cells) ∈ cols →
      ((∀ s ∈ cells, (to_numeric s).isSome) →
        coerce_column cells = .numeric (cells.map (fun s => (to_numeric s).getD 0))) ∧
      ((∃ s ∈ cells, to_numeric s = Option.none) →
        coerce_column cells = .raw cells) := by
  refine ⟨by rw [load_data_csv, h], ?_⟩
  intro name cells _
  exact ⟨coerce_column_all_numeric cells, coerce_column_revert cells⟩

/-- A one-file file system with one well-formed CSV table. -/
def demoFS : String → Option CsvFile := fun p =>
  if p = "data.csv" then
    some (.table [("a", ["1", "2.5"]), ("b", ["x", "3"])])
  else Option.none

theorem claim_C4_witness :
    load_data_csv demoFS "data.csv" =
      .ok (some [("a", .numeric [1, 5/2]), ("b", .raw ["x", "3"])]) := by
  have h := claim_C4 demoFS "data.csv" [("a", ["1", "2.5"]), ("b", ["x", "3"])] rfl
  rw [h.1]
  simp only [List.map_cons, List.map_nil]
  rw [(h.2 "a" ["1", "2.5"] (by simp)).1 (by decide),
    (h.2 "b" ["x", "3"] (by simp)).2 (by decide)]
  simp only [List.map_cons, List.map_nil]
  rw [show to_numeric "1" = some ((1 : ℕ) : ℚ) from rfl,
    show to_numeric "2.5" = some (((2 : ℕ) : ℚ) + ((5 : ℕ) : ℚ) / (10 : ℚ) ^ (1 : ℕ)) from rfl]
  norm_num

/-- C9: `load_data_csv` returns `None` exactly for delimited-text parse
failures (`ParserError`); any other failure — a missing file, an undecodable
file — propagates to the caller as an exception instead of becoming `None`
or an error string. -/
theorem claim_C9 (fs : String → Option CsvFile) (path : String) :
    (load_data_csv fs path = .ok Option.none ↔ fs path = some .malformed) ∧
    (fs path = Option.none → load_data_csv fs path = .error .fileNotFound) ∧
    (fs path = some .undecodable →
      load_data_csv fs path = .error .unicodeDecodeError) := by
  refine ⟨⟨fun h => ?_, fun h => by rw [load_data_csv, h]⟩,
    fun h => by rw [load_data_csv, h], fun h => by rw [load_data_csv, h]⟩
  rw [load_data_csv] at h
  cases hf : fs path with
  | none => rw [hf] at h; exact absurd h (by simp)
  | some f =>
    cases f with
    | table cols => rw [hf] at h; exact absurd h (by simp)
    | malformed => rfl
    | undecodable => rw [hf] at h; exact absurd h (by simp)

theorem claim_C9_witness :
    (load_data_csv demoFS "data.csv" = .ok Option.none ↔
      demoFS "data.csv" = some .malformed) ∧
    load_data_csv demoFS "missing.csv" = .error .fileNotFound :=
  ⟨(claim_C9 demoFS "data.csv").1,
   (claim_C9 demoFS "missing.csv").2.1 rfl⟩

/-! ## DataLoader.get_last_trained_model_name (DataLoader.py lines 205-224)

Python string primitives (`endswith`, `split`, `replace`) are modelled by
structural functions over the character list of the string. -/

/-- `x.endswith(suf)`. -/
def strEndsWith (x suf : List Char) : Bool :=
  x.drop (x.length - suf.length) == suf

/-- Is `p` an initial segment of `l`? -/
def isPrefixList : List Char → List Char → Bool
  | [], _ => true
  | _ :: _, [] => false
  | p :: ps, c :: cs => p == c && isPrefixList ps cs

/-- `x.split(sep)` for a one-character separator. -/
def splitOnChar (sep : Char) : List Char → List (List Char)
  | [] => [[]]
  | c :: rest =>
    let r := splitOnChar sep rest
    if c = sep then [] :: r
    else
      match r with
      | [] => [[c]]
      | h :: t => (c :: h) :: t

/-- `x.replace(pat, rep)`: replace all non-overlapping occurrences, left to
right (fuel-structured; the fuel starts at the length of the string, which
bounds the number of steps). -/
def replaceAllAux (pat rep : List Char) : Nat → List Char → List Char
  | _, [] => []
  | 0, l => l
  | fuel + 1, c :: rest =>
    if pat ≠ [] ∧ isPrefixList pat (c :: rest) then
      rep ++ replaceAllAux pat rep fuel (rest.drop (pat.length - 1))
    else
      c :: replaceAllAux pat rep fuel rest

/-- `x.replace(pat, rep)`. -/
def replaceAll (pat rep l : List Char) : List Char :=
  replaceAllAux pat rep l.length l

/-- One numeric strptime field: all digits, within the given range. -/
def parseField (s : List Char) (lo hi : Nat) : Option Nat :=
  if s ≠ [] ∧ s.all Char.isDigit then
    let n := digitsToNat s
    if lo ≤ n ∧ n ≤ hi then some n else Option.none
  else Option.none

/-- Gregorian leap year, as `datetime` validates dates. -/
def isLeap (y : Nat) : Bool :=
  y % 4 = 0 ∧ (y % 100 ≠ 0 ∨ y % 400 = 0)

def daysInMonth (y m : Nat) : Nat :=
  if m = 2 then (if isLeap y then 29 else 28)
  else if m = 4 ∨ m = 6 ∨ m = 9 ∨ m = 11 then 30 else 31

/-- `datetime.strptime(s, "%Y-%m-%d_%H-%M-%S")`, rendered as a chronological
index: a natural number strictly monotone in the parsed date-time, `none`
when the string does not match the format or a field is out of range
(strptime raises `ValueError` there). -/
def parse_timestamp (s : List Char) : Option Nat :=
  match splitOnChar '_' s with
  | [date, time] =>
    match splitOnChar '-' date, splitOnChar '-' time with
    | [ys, ms, ds], [hs, mins, ss] =>
      match parseField ys 1 9999, parseField ms 1 12, parseField ds 1 31,
          parseField hs 0 23, parseField mins 0 59, parseField ss 0 59 with
      | some y, some m, some d, some h, some mi, some sec =>
        if d ≤ daysInMonth y m then
          some (((((y * 12 + (m - 1)) * 31 + (d - 1)) * 24 + h) * 60 + mi)
            * 60 + sec)
        else Option.none
      | _, _, _, _, _, _ => Option.none
    | _, _ => Option.none
  | _ => Option.none

/-- The sort key of line 223: the segment after the last `#` with every
occurrence of ".pkl" removed, parsed with strptime. -/
def sort_key (x : String) : Option Nat :=
  parse_timestamp (replaceAll ".pkl".data [] ((splitOnChar '#' x.data).getLastD x.data))

/-- One insertion step of a descending sort by key.  (Python's
`list.sort(key=..., reverse=True)` is stable; this insertion sort agrees with
it except possibly on the order among names sharing one timestamp, and the
theorems below rely only on the head being key-maximal, which holds for any
descending sort.) -/
def insertDesc (key : String → Nat) (x : String) : List String → List String
  | [] => [x]
  | y :: ys => if key x ≤ key y then y :: insertDesc key x ys else x :: y :: ys

/-- Descending sort by key. -/
def sortDesc (key : String → Nat) (l : List String) : List String :=
  l.foldr (insertDesc key) []

/-- `DataLoader.get_last_trained_model_name` (DataLoader.py lines 205-224)
over an explicit directory listing.  Keeps the files ending in ".pkl";
returns `None` when there are none; otherwise sorts them descending by the
timestamp parsed from the name and returns `os.path.join(base_path, first)`.
`strptime` raises on a name whose timestamp segment does not parse — the sort
key runs with no surrounding try/except, so the exception escapes, modelled
by `.error`. -/
def get_last_trained_model_name (base_path : String) (files : List String) :
    Except String (Option String) :=
  let model_files := files.filter (fun f => strEndsWith f.data ".pkl".data)
  if model_files.isEmpty then .ok Option.none
  else if model_files.all (fun f => (sort_key f).isSome) then
    .ok (some (base_path ++ "/" ++
      (sortDesc (fun f => (sort_key f).getD 0) model_files).headD ""))
  else .error "time data does not match format %Y-%m-%d_%H-%M-%S"

theorem mem_insertDesc (key : String → Nat) (x y : String) (l : List String) :
    y ∈ insertDesc key x l ↔ y = x ∨ y ∈ l := by
  induction l with
  | nil => simp [insertDesc]
  | cons a l ih =>
    rw [insertDesc]
    by_cases h : key x ≤ key a
    · simp only [if_pos h, List.mem_cons, ih]
      tauto
    · simp only [if_neg h, List.mem_cons]

/-- The head of the descending sort of a nonempty list is a maximal element. -/
theorem sortDesc_head_max (key : String → Nat) (l : List String) (h : l ≠ []) :
    ∃ b t, sortDesc key l = b :: t ∧ b ∈ l ∧ ∀ g ∈ l, key g ≤ key b := by
  induction l with
  | nil => exact absurd rfl h
  | cons x xs ih =>
    cases hxs : xs with
    | nil =>
      exact ⟨x, [], rfl, by simp, by simp⟩
    | cons a as =>
      obtain ⟨b, t, hbt, hbmem, hbmax⟩ := ih (by simp [hxs])
      rw [← hxs] at *
      have : sortDesc key (x :: xs) = insertDesc key x (sortDesc key xs) := rfl
      rw [this, hbt, insertDesc]
      by_cases hk : key x ≤ key b
      · refine ⟨b, insertDesc key x t, by rw [if_pos hk], by simp [hbmem], ?_⟩
        intro g hg
        rcases List.mem_cons.mp hg with rfl | hg
        · exact hk
        · exact hbmax g hg
      · refine ⟨x, b :: t, by rw [if_neg hk], by simp, ?_⟩
        intro g hg
        rcases List.mem_cons.mp hg with rfl | hg
        · exact le_refl _
        · exact le_trans (hbmax g hg) (by omega)

/-- C5: `get_last_trained_model_name` considers exactly the files ending in
".pkl"; on a directory with none of them it returns `None`; otherwise (with
every such file's timestamp segment parseable, as the claim presupposes by
speaking of "the timestamp parsed") it returns `base_path/f` for a file `f`
ending in ".pkl" whose parsed timestamp is maximal among all ".pkl" files. -/
theorem claim_C5 (base_path : String) (files : List String) :
    (files.filter (fun f => strEndsWith f.data ".pkl".data) = [] →
      get_last_trained_model_name base_path files = .ok Option.none) ∧
    (files.filter (fun f => strEndsWith f.data ".pkl".data) ≠ [] →
      (∀ f ∈ files.filter (fun f => strEndsWith f.data ".pkl".data),
        (sort_key f).isSome) →
      ∃ best, get_last_trained_model_name base_path files =
          .ok (some (base_path ++ "/" ++ best)) ∧
        best ∈ files.filter (fun f => strEndsWith f.data ".pkl".data) ∧
        ∀ g ∈ files.filter (fun f => strEndsWith f.data ".pkl".data),
          (sort_key g).getD 0 ≤ (sort_key best).getD 0) := by
  constructor
  · intro h
    rw [get_last_trained_model_name]
    simp only [h]
    rfl
  · intro h hall
    obtain ⟨b, t, hbt, hbmem, hbmax⟩ :=
      sortDesc_head_max (fun f => (sort_key f).getD 0)
        (files.filter (fun f => strEndsWith f.data ".pkl".data)) h
    refine ⟨b, ?_, hbmem, hbmax⟩
    rw [get_last_trained_model_name]
    rw [if_neg (by simpa [List.isEmpty_iff] using h),
      if_pos (List.all_eq_true.mpr hall), hbt]
    rfl

theorem claim_C5_witness :
    get_last_trained_model_name "dir" ["notes.txt"] = .ok Option.none ∧
    get_last_trained_model_name "dir"
        ["model#2024-01-01_10-00-00.pkl", "model#2024-06-01_09-00-00.pkl"] =
      .ok (some "dir/model#2024-06-01_09-00-00.pkl") := by
  constructor
  · exact (claim_C5 "dir" ["notes.txt"]).1 (by decide)
  · decide

/-! ## DataLoader.save_data_pickle / load_data_pickle (DataLoader.py 143-169)

The file system is an explicit map from paths to the pickled frames; pickle
serialization is faithful (`pickle.load` returns a value equal to what
`pickle.dump` wrote), so a store models the dump/load pair. -/

/-- Comparison operators of a one-clause `DataFrame.query` condition
`"col OP constant"`. -/
inductive Cmp where
  | lt
  | le
  | gt
  | ge
  | eq
  | ne
deriving DecidableEq, Repr

/-- A one-clause query condition, `col OP const`. -/
structure QueryCond where
  col : String
  op : Cmp
  const : ℚ
deriving DecidableEq, Repr

/-- One row's comparison against the constant, with IEEE semantics for the
special values (every comparison with NaN is false except `!=`). -/
def evalCmp (op : Cmp) (v : EVal) (c : ℚ) : Bool :=
  match v with
  | .num q =>
    match op with
    | .lt => q < c
    | .le => q ≤ c
    | .gt => c < q
    | .ge => c ≤ q
    | .eq => q = c
    | .ne => q ≠ c
  | .nan => match op with | .ne => true | _ => false
  | .pinf => match op with | .gt => true | .ge => true | .ne => true | _ => false
  | .ninf => match op with | .lt => true | .le => true | .ne => true | _ => false

/-- Keep the entries of a column whose row is selected by the mask. -/
def applyMask : List Bool → List EVal → List EVal
  | b :: bs, v :: vs => if b then v :: applyMask bs vs else applyMask bs vs
  | _, _ => []

/-- `data.query(cond)`: the rows where the condition column satisfies the
comparison (requires the condition column to exist; `query` raises a
name-resolution error otherwise, handled at the call site below). -/
def query (df : Frame) (cond : QueryCond) : Frame :=
  let mask := (getCol df cond.col).map (fun v => evalCmp cond.op v cond.const)
  df.map (fun c => (c.1, applyMask mask c.2))

/-- A pickle store: path ↦ pickled frame. -/
abbrev PickleFS := String → Option Frame

/-- `DataLoader.save_data_pickle` (DataLoader.py lines 143-164): filter the
data when a condition is supplied (`data.query` raises when the condition
names an unknown column — there is no try/except, so it escapes, modelled by
`.error`), then write the pickle at the path. -/
def save_data_pickle (data : Frame) (fs : PickleFS) (filename_path : String)
    (filter_condition : Option QueryCond) : Except String PickleFS :=
  match filter_condition with
  | Option.none =>
      .ok (fun p => if p = filename_path then some data else fs p)
  | some cond =>
      if cond.col ∈ columns data then
        .ok (fun p => if p = filename_path then some (query data cond) else fs p)
      else
        .error ("name \x27" ++ cond.col ++ "\x27 is not defined")

/-- `DataLoader.load_data_pickle` (DataLoader.py lines 166-169). -/
def load_data_pickle (fs : PickleFS) (namefile_path : String) : Option Frame :=
  fs namefile_path

/-- C7: pickle round-trip — saving a frame with `save_data_pickle` and
loading the same path with `load_data_pickle` returns a value equal to the
original frame; when a filter condition (over an existing column) is
supplied, the loaded value equals the filtered subset `query data cond` of
the original. -/
theorem claim_C7 (data : Frame) (fs : PickleFS) (path : String) :
    (∃ fs2, save_data_pickle data fs path Option.none = .ok fs2 ∧
      load_data_pickle fs2 path = some data) ∧
    (∀ cond : QueryCond, cond.col ∈ columns data →
      ∃ fs2, save_data_pickle data fs path (some cond) = .ok fs2 ∧
        load_data_pickle fs2 path = some (query data cond)) := by
  constructor
  · exact ⟨_, rfl, by simp [load_data_pickle]⟩
  · intro cond hc
    refine ⟨fun p => if p = path then some (query data cond) else fs p,
      ?_, by simp [load_data_pickle]⟩
    rw [save_data_pickle, if_pos hc]

/-- An empty pickle store. -/
def emptyFS : PickleFS := fun _ => Option.none

theorem claim_C7_witness :
    (∃ fs2, save_data_pickle demoFrame emptyFS "d.pkl" Option.none = .ok fs2 ∧
      load_data_pickle fs2 "d.pkl" = some demoFrame) ∧
    (∃ fs2, save_data_pickle demoFrame emptyFS "d.pkl"
        (some ⟨"ref", .gt, 1⟩) = .ok fs2 ∧
      load_data_pickle fs2 "d.pkl" = some (query demoFrame ⟨"ref", .gt, 1⟩)) :=
  ⟨(claim_C7 demoFrame emptyFS "d.pkl").1,
   (claim_C7 demoFrame emptyFS "d.pkl").2 ⟨"ref", .gt, 1⟩ (by decide)⟩

/-! ## EDAStatisticalAnalysis.descriptive_statistics, correlation_matrix and
summary_statistics (DataEDA.py lines 16-38 and 134-158) -/

/-- `series.dropna()`: describe's statistics skip NaN entries. -/
def dropna (col : List EVal) : List EVal :=
  col.filter (fun v => v != EVal.nan)

/-- Float `≤` on non-NaN values (NaN compares false, as in IEEE). -/
def eleB : EVal → EVal → Bool
  | .nan, _ => false
  | _, .nan => false
  | .ninf, _ => true
  | _, .ninf => false
  | _, .pinf => true
  | .pinf, _ => false
  | .num x, .num y => x ≤ y

def insertAsc (x : EVal) : List EVal → List EVal
  | [] => [x]
  | y :: ys => if eleB x y then x :: y :: ys else y :: insertAsc x ys

def sortAsc (l : List EVal) : List EVal := l.foldr insertAsc []

/-- pandas linear-interpolation quantile on a sorted series
(NaN on an empty series). -/
def quantile (vs : List EVal) (p : ℚ) : EVal :=
  match vs with
  | [] => .nan
  | _ =>
    let n := vs.length
    let h : ℚ := p * ((n : ℚ) - 1)
    let l : Nat := h.floor.toNat
    let frac : ℚ := h - h.floor
    let lo := vs.getD l .nan
    let hi := vs.getD (l + 1) lo
    eadd lo (emul (.num frac) (esub hi lo))

/-- The `describe()` row for one column.  The reported std is the square root
of the sample variance; being irrational in general, it is carried as its
square `varS`, which determines it. -/
structure ColStats where
  count : Nat
  mean : EVal
  varS : EVal
  smin : EVal
  q25 : EVal
  q50 : EVal
  q75 : EVal
  smax : EVal
deriving DecidableEq, Repr

def colStats (col : List EVal) : ColStats :=
  let vals := dropna col
  let n := vals.length
  let mean := ediv (esum vals) (.num n)
  let varS := if n = 0 then EVal.nan
    else ediv (esum (vals.map (fun x => emul (esub x mean) (esub x mean))))
      (.num ((n : ℚ) - 1))
  let sorted := sortAsc vals
  { count := n, mean := mean, varS := varS,
    smin := sorted.headD .nan, q25 := quantile sorted (1/4),
    q50 := quantile sorted (1/2), q75 := quantile sorted (3/4),
    smax := sorted.getLastD .nan }

/-- The table `df.describe()` yields on a DataFrame that has columns: one
stats row per column (every column of a `Frame` is a float column in this
model). -/
def describeCols (df : Frame) : List (String × ColStats) :=
  df.map (fun c => (c.1, colStats c.2))

/-- `EDAStatisticalAnalysis.descriptive_statistics` (DataEDA.py lines 16-23):
`df.describe()` — count/mean/std/min/quartiles/max per column.  The method
has no try/except, and on a DataFrame without columns `describe()` raises
`ValueError("Cannot describe a DataFrame without columns")`, which escapes to
the caller; modelled by `.error`. -/
def descriptive_statistics (df : Frame) :
    Except String (List (String × ColStats)) :=
  if df.isEmpty then .error "Cannot describe a DataFrame without columns"
  else .ok (describeCols df)

/-- The numeric pairs of two columns (pandas corr uses pairwise complete
observations). -/
def pairNums (a b : List EVal) : List (ℚ × ℚ) :=
  (List.zip a b).filterMap (fun p =>
    match p with
    | (.num x, .num y) => some (x, y)
    | _ => Option.none)

/-- Pearson r between two columns, as the pair (S_xy, S_xx·S_yy): the real
r is S_xy / √(S_xx·S_yy), an irrational function of this determining data. -/
def corrPair (a b : List EVal) : ℚ × ℚ :=
  let ps := pairNums a b
  if ps.isEmpty then (0, 0)
  else
    let n : ℚ := ps.length
    let sx := (ps.map Prod.fst).sum
    let sy := (ps.map Prod.snd).sum
    ((ps.map (fun p => p.1 * p.2)).sum - sx * sy / n,
     ((ps.map (fun p => p.1 * p.1)).sum - sx * sx / n) *
       ((ps.map (fun p => p.2 * p.2)).sum - sy * sy / n))

/-- `df.corr()`: the named matrix of pairwise correlations. -/
def corr (df : Frame) : List (String × List (String × (ℚ × ℚ))) :=
  df.map (fun c => (c.1, df.map (fun c2 => (c2.1, corrPair c.2 c2.2))))

/-- `EDAStatisticalAnalysis.correlation_matrix` (DataEDA.py lines 25-38):
`df.corr()`; when the matrix is empty (no numeric columns) a ValueError is
raised and caught, returning the message string in place of the matrix. -/
def correlation_matrix (df : Frame) :
    Except String (List (String × List (String × (ℚ × ℚ)))) :=
  if df.isEmpty then .error "Unable to compute correlations."
  else .ok (corr df)

/-- A value packaged by `summary_statistics`: the result of one of the four
analyses it performs (the error-analysis tuple contributing its two
components under two keys), or the `str(e)` of the top-level handler. -/
inductive SummaryVal where
  | stats (v : List (String × ColStats))
  | corrM (v : Except String (List (String × List (String × (ℚ × ℚ)))))
  | errA (v : Except String Frame)
  | errR (v : Option Frame)
  | anovaR (v : Except String EVal × Option PVal)
  | msg (s : String)
deriving DecidableEq

/-- `EDAStatisticalAnalysis.summary_statistics` (DataEDA.py lines 134-158):
calls `descriptive_statistics`, `correlation_matrix`, `error_analysis` and
`anova_test` (lines 145-148) and packages the results under five fixed keys.
The body sits in a try/except whose handler returns the single-entry
`{"Error": str(e)}` mapping; the only callee that can raise is
`descriptive_statistics` (the other three catch internally), so the model
dispatches on its result: its `ValueError` on a zero-column frame lands in
the handler. -/
def summary_statistics (df : Frame) (reference_col : String)
    (measurement_cols : List String) : List (String × SummaryVal) :=
  match descriptive_statistics df with
  | .error e => [("Error", .msg e)]
  | .ok desc_stats =>
    let corr_matrix := correlation_matrix df
    let ea := error_analysis df reference_col measurement_cols
    let anova_result := anova_test df measurement_cols
    [("Descriptive Statistics", .stats desc_stats),
     ("Correlation Matrix", .corrM corr_matrix),
     ("Absolute Errors", .errA ea.1),
     ("Relative Errors", .errR ea.2),
     ("ANOVA Result", .anovaR anova_result)]

/-- The named analyses of the EDAStatisticalAnalysis component (its seven
static analysis methods). -/
inductive Analysis where
  | descriptiveStatistics
  | correlationMatrix
  | errorAnalysis
  | anovaTest
  | linearRegressionModel
  | modelValidation
  | residualAnalysis
deriving DecidableEq, Repr

/-- The analyses invoked in the body of `summary_statistics` (the four calls
at DataEDA.py lines 145-148, in call order). -/
def summary_statistics_calls : List Analysis :=
  [.descriptiveStatistics, .correlationMatrix, .errorAnalysis, .anovaTest]

/-- C3 counterexample: `summary_statistics` does not invoke five analyses —
linear regression is not among its calls (DataEDA.py lines 145-148 call only
descriptive statistics, correlation, error analysis and ANOVA), and on a
concrete dataset the packaged structure's keys are exactly the five fixed
keys fed by those four analyses, with no linear-regression entry. -/
theorem claim_C3_counterexample :
    Analysis.linearRegressionModel ∉ summary_statistics_calls ∧
    summary_statistics_calls.length = 4 ∧
    (summary_statistics demoFrame "ref" ["m1", "ref"]).map Prod.fst =
      ["Descriptive Statistics", "Correlation Matrix", "Absolute Errors",
       "Relative Errors", "ANOVA Result"] :=
  ⟨by decide, rfl, rfl⟩

/-- C3 (amended): `summary_statistics` invokes four analyses of the
StatisticalAnalysis component — descriptive statistics, correlation matrix,
error analysis, ANOVA — and packages their results under the five fixed keys;
it never raises: an inner failure appears as a string/None inside the
packaged structure (with the reference column absent, the "Absolute Errors"
entry holds an error-message string and "Relative Errors" holds None), and a
top-level failure — `describe()` raising on a dataset without columns —
yields the single-entry error mapping `{"Error": str(e)}`. -/
theorem claim_C3 (df : Frame) (rc : String) (mcols : List String) :
    (df ≠ [] →
      summary_statistics df rc mcols =
        [("Descriptive Statistics", .stats (describeCols df)),
         ("Correlation Matrix", .corrM (correlation_matrix df)),
         ("Absolute Errors", .errA (error_analysis df rc mcols).1),
         ("Relative Errors", .errR (error_analysis df rc mcols).2),
         ("ANOVA Result", .anovaR (anova_test df mcols))]) ∧
    (df = [] →
      ∃ e, summary_statistics df rc mcols = [("Error", .msg e)]) ∧
    (df ≠ [] → rc ∉ columns df →
      ∃ s, (summary_statistics df rc mcols).lookup "Absolute Errors" =
          some (.errA (.error s)) ∧
        (summary_statistics df rc mcols).lookup "Relative Errors" =
          some (.errR Option.none)) := by
  have hmain : df ≠ [] →
      summary_statistics df rc mcols =
        [("Descriptive Statistics", .stats (describeCols df)),
         ("Correlation Matrix", .corrM (correlation_matrix df)),
         ("Absolute Errors", .errA (error_analysis df rc mcols).1),
         ("Relative Errors", .errR (error_analysis df rc mcols).2),
         ("ANOVA Result", .anovaR (anova_test df mcols))] := by
    intro h
    rw [summary_statistics, descriptive_statistics,
      if_neg (by simpa [List.isEmpty_iff] using h)]
  refine ⟨hmain, fun h => ?_, fun h h2 => ?_⟩
  · subst h
    exact ⟨_, rfl⟩
  · rw [hmain h]
    refine ⟨"Reference column \x27" ++ rc ++ "\x27 not found in DataFrame.",
      ?_, ?_⟩ <;>
      simp [error_analysis, if_pos h2, List.lookup]

theorem claim_C3_witness :
    (∃ e, summary_statistics [] "ref" ["m1"] = [("Error", SummaryVal.msg e)]) ∧
    (∃ s, (summary_statistics demoFrame "zz" ["m1"]).lookup "Absolute Errors" =
        some (.errA (.error s)) ∧
      (summary_statistics demoFrame "zz" ["m1"]).lookup "Relative Errors" =
        some (.errR Option.none)) :=
  ⟨(claim_C3 [] "ref" ["m1"]).2.1 rfl,
   (claim_C3 demoFrame "zz" ["m1"]).2.2 (by decide) (by decide)⟩

end CM
